import Mathlib

/-!
Verification model of the lambda-deploy scheduling integration.

The JavaScript source is shallowly embedded:
JSON values become an inductive `Json`; a JavaScript `Date` becomes a civil
date-time record `JsDate` (the Lambda runtime operates in UTC, so local time
and UTC coincide); epoch-millisecond arithmetic is modelled with the standard
civil-from-days / days-from-civil calendar algorithms translated to `Int`;
external HTTP services (the Cal.com scheduling API) are oracles passed in as
function-valued parameters; thrown errors are `Except` errors.
-/

namespace LambdaCal

/-! ## JSON values and JavaScript truthiness -/

/-- A JSON value, as produced by `JSON.parse` and consumed by
`JSON.stringify`.  Fields that are `undefined` in JavaScript are modelled by
omitting the key (which is what `JSON.stringify` does). -/
inductive Json where
  | str : String → Json
  | num : Int → Json
  | bool : Bool → Json
  | null : Json
  | arr : List Json → Json
  | obj : List (String × Json) → Json

/-- Look a key up in an object field list (first match wins, as in a JS
object, whose keys are unique). -/
def jfield : List (String × Json) → String → Option Json
  | [], _ => none
  | (k0, v0) :: rest, k => if k0 = k then some v0 else jfield rest k

/-- Property access `j[k]` on a JSON value; `undefined` is `none`. -/
def jget : Json → String → Option Json
  | Json.obj fields, k => jfield fields k
  | _, _ => none

/-- Extract a string value, if the JSON value is a string. -/
def jstr? : Option Json → Option String
  | some (Json.str s) => some s
  | _ => none

/-- Extract a boolean value, if the JSON value is a boolean. -/
def jbool? : Option Json → Option Bool
  | some (Json.bool b) => some b
  | _ => none

/-- Length of an array value, if the JSON value is an array. -/
def jarrLen? : Option Json → Option Nat
  | some (Json.arr l) => some l.length
  | _ => none

/-- Field access composed through an `Option`. -/
def jgetStr (o : Option Json) (k : String) : Option String :=
  match o with
  | some j => jstr? (jget j k)
  | none => none

/-- JavaScript truthiness of a value: empty string, zero, `false` and `null`
are falsy; every object and array (even empty) is truthy. -/
def jsTruthy : Json → Bool
  | Json.str s => s != ""
  | Json.num n => n != 0
  | Json.bool b => b
  | Json.null => false
  | Json.arr _ => true
  | Json.obj _ => true

/-- Truthiness of a possibly-`undefined` value (`undefined` is falsy). -/
def jsTruthyOpt : Option Json → Bool
  | none => false
  | some v => jsTruthy v

/-- Assignment `o[k] = v` on an object field list: replace the value when the
key exists, append otherwise. -/
def jsetField : List (String × Json) → String → Json → List (String × Json)
  | [], k, v => [(k, v)]
  | (k0, v0) :: rest, k, v =>
      if k0 = k then (k0, v) :: rest else (k0, v0) :: jsetField rest k v

/-! ## JavaScript dates

The runtime time zone is UTC (AWS Lambda default), so `getHours`,
`setDate`, the `Date(y, m, d)` constructor and `toISOString` all agree on the
same civil fields. -/

/-- A `Date`, by its civil UTC fields.  `month` is 1-based here (JavaScript
`getMonth()` is 0-based; the embedding converts at the few call sites that
use the 0-based index). -/
structure JsDate where
  year : Nat
  month : Nat
  day : Nat
  hour : Nat
  minute : Nat
  second : Nat
  ms : Nat
deriving DecidableEq, Repr

def isLeapYear (y : Nat) : Bool :=
  (y % 4 == 0 && y % 100 != 0) || y % 400 == 0

def daysInMonth (y m : Nat) : Nat :=
  if m = 2 then (if isLeapYear y then 29 else 28)
  else if m = 4 ∨ m = 6 ∨ m = 9 ∨ m = 11 then 30
  else 31

/-- The civil fields denote an actual calendar date and time of day. -/
def ValidDate (d : JsDate) : Prop :=
  1 ≤ d.month ∧ d.month ≤ 12 ∧ 1 ≤ d.day ∧ d.day ≤ daysInMonth d.year d.month
    ∧ d.hour < 24 ∧ d.minute < 60 ∧ d.second < 60 ∧ d.ms < 1000

instance (d : JsDate) : Decidable (ValidDate d) := by
  unfold ValidDate; infer_instance

/-- Day number of the civil date `(y, m, d)` relative to 1970-01-01
(the standard civil-calendar day-count algorithm).  `m` must lie in `1..12`;
`d` may lie outside `1..31`, in which case the count is extended linearly —
exactly the semantics of the `MakeDay` step used by the JavaScript `Date`
constructor and by `setDate`. -/
def daysFromCivil (y m d : Int) : Int :=
  let y2 := if m ≤ 2 then y - 1 else y
  let era := (if 0 ≤ y2 then y2 else y2 - 399) / 400
  let yoe := y2 - era * 400
  let doy := (153 * (if 2 < m then m - 3 else m + 9) + 2) / 5 + d - 1
  let doe := yoe * 365 + yoe / 4 - yoe / 100 + doy
  era * 146097 + doe - 719468

/-- Inverse of `daysFromCivil`: the civil date `(y, m, d)` of a day number. -/
def civilFromDays (z0 : Int) : Int × Int × Int :=
  let z := z0 + 719468
  let era := (if 0 ≤ z then z else z - 146096) / 146097
  let doe := z - era * 146097
  let yoe := (doe - doe / 1460 + doe / 36524 - doe / 146096) / 365
  let y := yoe + era * 400
  let doy := doe - (365 * yoe + yoe / 4 - yoe / 100)
  let mp := (5 * doy + 2) / 153
  let d := doy - (153 * mp + 2) / 5 + 1
  let m := if mp < 10 then mp + 3 else mp - 9
  (if m ≤ 2 then y + 1 else y, m, d)

/-- `Date.prototype.getTime`: epoch milliseconds of the civil fields. -/
def getTime (d : JsDate) : Int :=
  86400000 * daysFromCivil d.year d.month d.day
    + 3600000 * d.hour + 60000 * d.minute + 1000 * d.second + d.ms

/-- `new Date(t)` from epoch milliseconds. -/
def fromTime (t : Int) : JsDate :=
  let z := Int.fdiv t 86400000
  let r := (Int.fmod t 86400000).toNat
  let c := civilFromDays z
  { year := c.1.toNat, month := c.2.1.toNat, day := c.2.2.toNat,
    hour := r / 3600000, minute := r % 3600000 / 60000,
    second := r % 60000 / 1000, ms := r % 1000 }

/-- The comparison `a <= b` on two `Date`s (epoch-millisecond order). -/
def jsLe (a b : JsDate) : Bool := decide (getTime a ≤ getTime b)

/-- `Date.prototype.setFullYear`: replace the year and renormalize the civil
fields the way `MakeDay` does.  A date read from a real `Date` has
`day ≤ 31`, so the only possible overflow is 29 February of a non-leap target
year, which rolls to 1 March (and in general at most one month ahead). -/
def setFullYear (d : JsDate) (y : Nat) : JsDate :=
  if d.day ≤ daysInMonth y d.month then { d with year := y }
  else { d with year := y, month := d.month + 1, day := d.day - daysInMonth y d.month }

/-- `d.setDate(n)`: replace the day-of-month by `n` (possibly out of range)
and renormalize, via the epoch day count. -/
def setDayOfMonth (d : JsDate) (n : Int) : JsDate :=
  let c := civilFromDays (daysFromCivil d.year d.month n)
  { d with year := c.1.toNat, month := c.2.1.toNat, day := c.2.2.toNat }

def padTwo (n : Nat) : String :=
  if n < 10 then "0" ++ toString n else toString n

def padThree (n : Nat) : String :=
  if n < 10 then "00" ++ toString n
  else if n < 100 then "0" ++ toString n
  else toString n

def padFour (n : Nat) : String :=
  if n < 10 then "000" ++ toString n
  else if n < 100 then "00" ++ toString n
  else if n < 1000 then "0" ++ toString n
  else toString n

/-- The date part of `toISOString` (what `.toISOString().split(sep)[0]`
produces) for a given epoch day number. -/
def isoDateOfDayNumber (z : Int) : String :=
  let c := civilFromDays z
  padFour c.1.toNat ++ "-" ++ padTwo c.2.1.toNat ++ "-" ++ padTwo c.2.2.toNat

/-- `Date.prototype.toISOString`. -/
def isoDateTime (d : JsDate) : String :=
  padFour d.year ++ "-" ++ padTwo d.month ++ "-" ++ padTwo d.day ++ "T"
    ++ padTwo d.hour ++ ":" ++ padTwo d.minute ++ ":" ++ padTwo d.second
    ++ "." ++ padThree d.ms ++ "Z"

/-! ## Availability helpers

`calApi.formatAvailabilityForVoice`, `calApi.isTimeSlotAvailable` and
`calApi.findAlternativeTimeSlots` are called from the booking handler
(`src/unnamed/part_011`) and mocked in the test suite, but their definitions
are not part of the repository sources, so they are modelled from the
specification. -/

/-- Modelled from the spec: `calApi.formatAvailabilityForVoice` decorates the
availability slots for speech output; downstream code consumes only each
slot's `time` field, so the model passes the slot times through unchanged. -/
def formatAvailabilityForVoice (slots : List JsDate) : List JsDate := slots

/-- Modelled from the spec: `calApi.isTimeSlotAvailable` — the requested start
time is available exactly when it appears in the availability set, by exact
timestamp match. -/
def isTimeSlotAvailable (slots : List JsDate) (t : JsDate) : Bool :=
  slots.any (fun s => s == t)

/-- Absolute time distance, in milliseconds, between a slot and the requested
instant. -/
def altDist (t0 s : JsDate) : Nat := (getTime s - getTime t0).natAbs

/-- The ranking order on candidate slots: strictly smaller absolute distance
to the requested instant first; for equal distances, the earlier timestamp
first. -/
def altRel (t0 : JsDate) (a b : JsDate) : Prop :=
  altDist t0 a < altDist t0 b ∨ (altDist t0 a = altDist t0 b ∧ getTime a ≤ getTime b)

instance (t0 : JsDate) : DecidableRel (altRel t0) := fun a b => by
  unfold altRel; infer_instance

instance (t0 : JsDate) : IsTotal JsDate (altRel t0) :=
  ⟨fun a b => by unfold altRel; omega⟩

instance (t0 : JsDate) : IsTrans JsDate (altRel t0) :=
  ⟨fun a b c hab hbc => by unfold altRel at hab hbc ⊢; omega⟩

/-- Modelled from the spec: `calApi.findAlternativeTimeSlots slots t0 n` —
sort the candidate set by ascending absolute distance to `t0`, ties broken by
the earlier timestamp, and truncate to `n` entries (stable sort, so equal
elements keep their input order). -/
def findAlternativeTimeSlots (slots : List JsDate) (t0 : JsDate) (n : Nat) : List JsDate :=
  (slots.insertionSort (altRel t0)).take n

/-! ## Errors (src utils errorHandler) -/

/-- A thrown JavaScript error, with the fields the error handler inspects.
`ValidationError` carries `name := "ValidationError"`, `statusCode := 400`
and the offending field. -/
structure ThrownError where
  name : String := "Error"
  message : String := ""
  statusCode : Option Nat := none
  field : Option String := none
  resource : Option String := none
deriving DecidableEq, Repr

/-- Shorthand for the `ValidationError` class of the error utilities. -/
def validationError (message fieldName : String) : ThrownError :=
  { name := "ValidationError", message := message,
    statusCode := some 400, field := some fieldName }

/-- An HTTP response object `{statusCode, headers, body}`; the body is the
JSON value that `JSON.stringify` serializes. -/
structure HttpResponse where
  statusCode : Nat
  headers : List (String × String) := []
  body : Json

def optJsonField (k : String) : Option Json → List (String × Json)
  | some v => [(k, v)]
  | none => []

/-- `handleError` of the error utilities: status from the error (default 500),
JSON body `{success:false, error, type}` plus `field` / `resource` when the
error carries them, and `Content-Type` / `Access-Control-Allow-Origin`
headers. -/
def handleError (e : ThrownError) : HttpResponse :=
  { statusCode := e.statusCode.getD 500,
    headers := [("Content-Type", "application/json"),
                ("Access-Control-Allow-Origin", "*")],
    body := Json.obj
      ([("success", Json.bool false),
        ("error", Json.str e.message),
        ("type", Json.str e.name)]
        ++ (match e.field with | some f => [("field", Json.str f)] | none => [])
        ++ (match e.resource with | some r => [("resource", Json.str r)] | none => [])) }

/-! ## The booking handler of src unnamed part 011 -/

/-- An error raised by the Cal.com API client, with the fields inspected by
the booking handler's catch block (`error.source`, `error.statusCode`,
`error.details.error.message`). -/
structure ApiError where
  source : String
  statusCode : Nat
  detailsMessage : Option String := none
deriving DecidableEq, Repr

/-- The Cal.com client operations used by the booking handler, as an oracle:
`getAvailability eventTypeId startDate endDate timeZone` returns the slot
times, `createBooking` takes the serialized booking details. -/
structure CalApi where
  getAvailability : Nat → String → String → String → Except ApiError (List JsDate)
  createBooking : Json → Except ApiError Json

/-- The parameters destructured by `createBooking` in part 011.  Date-valued
parameters are modelled as parsed `JsDate`s (the ISO strings of the request
in canonical form). -/
structure BookingParams where
  name : Option String := none
  email : Option String := none
  startTime : Option JsDate := none
  endTime : Option JsDate := none
  timeZone : Option String := none
  notes : Option String := none
  guests : List String := []
  location : Option String := none
  eventTypeId : Option Nat := none

/-- The shared configuration fields consumed by the booking handler. -/
structure CalConfig where
  apiKey : String := ""
  eventTypeId : Nat := 2077162
deriving DecidableEq, Repr

/-- Truthiness of an optional string parameter (absent or empty is falsy). -/
def presentStr : Option String → Bool
  | some s => s != ""
  | none => false

/-- The error raised by part 011 when a required booking parameter is
missing. -/
def missingParamsError : ThrownError :=
  validationError "Missing required parameters" "params"

/-- Lines 556-582 of part 011: the date-repair policy applied to the
requested start time.  Returns `some adjusted` exactly when the code takes
the adjustment branch (`isPastYear || isPastDate`). -/
def repairStart (bookingDate now : JsDate) : Option JsDate :=
  let isPastYear := bookingDate.year < now.year
  let isPastDate := jsLe bookingDate now
  if isPastYear ∨ isPastDate then
    some (if isPastYear then
            let adjusted := setFullYear bookingDate now.year
            if jsLe adjusted now then setFullYear adjusted (now.year + 1) else adjusted
          else
            -- same-year past time: tomorrow at the requested hour and minute,
            -- seconds and milliseconds zeroed
            let t := setDayOfMonth now ((now.day : Int) + 1)
            { t with hour := bookingDate.hour, minute := bookingDate.minute,
                     second := 0, ms := 0 })
  else none

/-- Lines 562-629 of part 011: the updated `params.startTime` and
`params.endTime` after date repair.  Note that at line 618 the source
computes `timeDiff = originalEndTime - bookingDate` only after line 610 has
already reassigned `bookingDate = adjustedDate`, so the offset is taken from
the adjusted date, not from the original start. -/
def dateRepair (startTime0 : JsDate) (endTime0 : Option JsDate) (now : JsDate) :
    JsDate × Option JsDate :=
  match repairStart startTime0 now with
  | none => (startTime0, endTime0)
  | some adjustedDate =>
      let newEnd :=
        match endTime0 with
        | none => none
        | some originalEndTime =>
            let timeDiff := getTime originalEndTime - getTime adjustedDate
            some (fromTime (getTime adjustedDate + timeDiff))
      (adjustedDate, newEnd)

/-- Lines 640-642 and 744-745 of part 011: the availability window, computed
with the 0-based month constructor `new Date(y, getMonth(), getDate() - b)`
and `.toISOString()` date part, `b` days before to `a` days after the given
date. -/
def availabilityWindow (d : JsDate) (b a : Int) : String × String :=
  (isoDateOfDayNumber (daysFromCivil d.year d.month ((d.day : Int) - b)),
   isoDateOfDayNumber (daysFromCivil d.year d.month ((d.day : Int) + a)))

/-- The 409 conflict response of part 011 (lines 657-665 and 752-760; the two
sites build the identical body). -/
def conflictResponse (alts : List JsDate) : HttpResponse :=
  { statusCode := 409,
    body := Json.obj
      [("success", Json.bool false),
       ("error", Json.str "Requested time slot is not available"),
       ("alternativeSlots", Json.arr (alts.map (fun t => Json.str (isoDateTime t)))),
       ("message", Json.str "The requested time slot is not available. Please choose from the alternative slots provided.")] }

/-- The booking-details object sent to `calApi.createBooking` by part 011
(lines 669-691).  Optional JavaScript fields that are `undefined` are
omitted, as `JSON.stringify` would do.  Note that `startTime` and `endTime`
here are the destructured local constants, i.e. the ORIGINAL request values,
not the repaired `params.startTime` / `params.endTime`.  Locale rendering is
abstracted to ISO strings. -/
def mkBookingDetails (eventTypeId : Nat) (p : BookingParams)
    (startTime : JsDate) (endTime : Option JsDate) (timeZone : String)
    (now : JsDate) : Json :=
  Json.obj
    ([("eventTypeId", Json.num eventTypeId),
      ("eventTypeSlug", Json.str "secret"),
      ("name", Json.str (p.name.getD "")),
      ("email", Json.str (p.email.getD "")),
      ("startTime", Json.str (isoDateTime startTime))]
      ++ (match endTime with
          | some e => [("endTime", Json.str (isoDateTime e))]
          | none => [])
      ++ [("timeZone", Json.str timeZone)]
      ++ (match p.notes with
          | some s => [("notes", Json.str s)]
          | none => [])
      ++ [("metadata", Json.obj
            [("source", Json.str "lambda-cal-vapi-integration"),
             ("created", Json.str (isoDateTime now))])]
      ++ (if p.guests.isEmpty then []
          else [("guests", Json.arr (p.guests.map Json.str))])
      ++ (match p.location with
          | some s => if s != "" then [("location", Json.str s)] else []
          | none => []))

/-- The 200 success response of part 011 (lines 696-734).  `dateAdjusted`
compares the original `startTime` with the updated `params.startTime`; the
human-readable locale message is abstracted to a fixed note (its text is not
inspected anywhere). -/
def successResponse (booking : Json) (origStart newStart : JsDate) : HttpResponse :=
  { statusCode := 200,
    body := Json.obj
      [("success", Json.bool true),
       ("booking", booking),
       ("message", Json.str
          (if origStart == newStart then "Booking created successfully"
           else "Booking created successfully. Note: the requested date was in the past, so the appointment was scheduled for the adjusted date instead.")),
       ("dateAdjusted", Json.bool (origStart != newStart)),
       ("originalDate", Json.str (isoDateTime origStart)),
       ("adjustedDate", Json.str (isoDateTime newStart))] }

/-- The indicator string tested by the catch block of part 011 (line 740). -/
def alreadyBookedIndicator : String :=
  "already has booking at this time or is not available"

/-- Whether the first list is an initial run of the second. -/
def leadsWith : List Char → List Char → Bool
  | [], _ => true
  | _ :: _, [] => false
  | p :: ps, c :: cs => p == c && leadsWith ps cs

/-- Whether the pattern occurs as a contiguous run of the character list. -/
def hasSubChars (pat : List Char) : List Char → Bool
  | [] => leadsWith pat []
  | c :: cs => leadsWith pat (c :: cs) || hasSubChars pat cs

/-- JavaScript `String.prototype.includes`. -/
def strIncludes (s pat : String) : Bool := hasSubChars pat.toList s.toList

/-- Line 739-740 of part 011: recognize the Cal.com already-booked error. -/
def isAlreadyBookedError (e : ApiError) : Bool :=
  e.source == "cal" && e.statusCode == 400 &&
    (match e.detailsMessage with
     | some m => strIncludes m alreadyBookedIndicator
     | none => false)

/-- An error escaping the booking handler (rethrown to the outer Lambda
handler). -/
inductive CBError where
  | validation : ThrownError → CBError
  | api : ApiError → CBError
deriving DecidableEq, Repr

/-- The catch block of part 011 `createBooking` (lines 735-769): on an
already-booked Cal.com error, look availability up over the widened window
(3 days before to 7 days after the ORIGINAL requested date) and answer 409
with ranked alternatives; if that lookup also fails, or for any other error,
rethrow the original error. -/
def createBookingCatch (e : ApiError) (startTime0 : JsDate) (eventTypeId : Nat)
    (timeZone : String) (api : CalApi) : Except CBError HttpResponse :=
  if isAlreadyBookedError e then
    let w := availabilityWindow startTime0 3 7
    match api.getAvailability eventTypeId w.1 w.2 timeZone with
    | Except.ok avail =>
        Except.ok (conflictResponse
          (findAlternativeTimeSlots (formatAvailabilityForVoice avail) startTime0 5))
    | Except.error _ => Except.error (CBError.api e)
  else Except.error (CBError.api e)

/-- `createBooking` of part 011 (lines 539-770): validate, apply date repair
to `params.startTime` / `params.endTime`, pre-flight the availability window
(computed from the destructured ORIGINAL `startTime`), answer 409 with
ranked alternatives when the requested time is not in the availability set,
otherwise submit the booking (also with the original `startTime`) and answer
200; Cal.com errors go through the catch block. -/
def createBooking (p : BookingParams) (cfg : CalConfig) (now : JsDate)
    (api : CalApi) : Except CBError HttpResponse :=
  match p.startTime with
  | none => Except.error (CBError.validation missingParamsError)
  | some startTime0 =>
      if !(presentStr p.name && presentStr p.email && presentStr p.timeZone) then
        Except.error (CBError.validation missingParamsError)
      else
        let timeZone := p.timeZone.getD ""
        let repaired := dateRepair startTime0 p.endTime now
        let eventTypeId := p.eventTypeId.getD cfg.eventTypeId
        let w := availabilityWindow startTime0 1 1
        match api.getAvailability eventTypeId w.1 w.2 timeZone with
        | Except.error e => createBookingCatch e startTime0 eventTypeId timeZone api
        | Except.ok avail =>
            let formatted := formatAvailabilityForVoice avail
            if !(isTimeSlotAvailable formatted startTime0) then
              Except.ok (conflictResponse
                (findAlternativeTimeSlots formatted startTime0 5))
            else
              match api.createBooking
                  (mkBookingDetails eventTypeId p startTime0 p.endTime timeZone now) with
              | Except.ok booking =>
                  Except.ok (successResponse booking startTime0 repaired.1)
              | Except.error e =>
                  createBookingCatch e startTime0 eventTypeId timeZone api

/-! ## The Lambda dispatcher of src index.js -/

/-- The closed action enumeration declared at the top of src index.js
(lines 11-22); it is also exactly the set of cases of the dispatch switch. -/
def VALID_ACTIONS : List String :=
  ["createBooking", "getAvailableSlots", "rescheduleBooking",
   "cancelBooking", "getBookingDetails", "checkAvailability",
   "findAvailability", "handleVapiWebhook", "initializeAssistant",
   "trialStarted"]

/-- The local `knownActions` list used for path-based resolution inside the
handler (lines 83-84) — a strict subset of `VALID_ACTIONS`. -/
def knownActions : List String :=
  ["createBooking", "getAvailableSlots", "rescheduleBooking",
   "cancelBooking", "getBookingDetails", "checkAvailability"]

/-- An inbound Lambda event.  `body` is `none` when absent,
`some (Except.error raw)` when it is a string that fails `JSON.parse`
(the handler then keeps the empty object), and `some (Except.ok fields)`
when it parses to a JSON object. -/
structure LambdaEvent where
  httpMethod : Option String := none
  path : Option String := none
  queryStringParameters : Option (List (String × String)) := none
  body : Option (Except String (List (String × Json))) := none

/-- The parsed request body (lines 53-60): `{}` when absent or malformed. -/
def parsedBody (e : LambdaEvent) : List (String × Json) :=
  match e.body with
  | some (Except.ok fields) => fields
  | _ => []

/-- The query parameters, `{}` when absent (line 67). -/
def queryParamsOf (e : LambdaEvent) : List (String × String) :=
  e.queryStringParameters.getD []

/-- String-map lookup (JS object property access on the query object). -/
def sfield : List (String × String) → String → Option String
  | [], _ => none
  | (k0, v0) :: rest, k => if k0 = k then some v0 else sfield rest k

/-- Split a character list at every occurrence of the separator. -/
def splitCharAux (sep : Char) : List Char → List Char → List (List Char)
  | [], acc => [acc.reverse]
  | c :: rest, acc =>
      if c == sep then acc.reverse :: splitCharAux sep rest []
      else splitCharAux sep rest (c :: acc)

/-- JavaScript `s.split(sep)` for a single-character separator. -/
def jsSplit (s : String) (sep : Char) : List String :=
  (splitCharAux sep s.toList []).map String.mk

/-- Lines 63-64: `event.path.split(sep).filter(Boolean)` with the slash
separator. -/
def pathParts (e : LambdaEvent) : List String :=
  match e.path with
  | some p => (jsSplit p '/').filter (fun s => s != "")
  | none => []

/-- The last non-empty path segment, or the empty string. -/
def lastPathPart (e : LambdaEvent) : String :=
  ((pathParts e).getLast?).getD ""

/-- Whether the event carries a truthy (present and non-empty) `action`
query parameter (line 78). -/
def hasQueryAction (e : LambdaEvent) : Bool :=
  match sfield (queryParamsOf e) "action" with
  | some s => s != ""
  | none => false

/-- Lines 71-99 of src index.js: action resolution.  Path `createBooking`
first; then a truthy `action` query parameter, verbatim; then a last path
segment that is in `knownActions`; any other non-empty segment falls back to
`handleVapiWebhook`; then a truthy body `action` field (any JSON value);
else `handleVapiWebhook`. -/
def resolveAction (e : LambdaEvent) : Json :=
  if lastPathPart e == "createBooking" || e.path == some "/createBooking" then
    Json.str "createBooking"
  else if hasQueryAction e then
    Json.str ((sfield (queryParamsOf e) "action").getD "")
  else if lastPathPart e != "" then
    (if knownActions.contains (lastPathPart e) then Json.str (lastPathPart e)
     else Json.str "handleVapiWebhook")
  else if jsTruthyOpt (jfield (parsedBody e) "action") then
    (jfield (parsedBody e) "action").getD Json.null
  else
    Json.str "handleVapiWebhook"

/-- Lines 101-114 of src index.js: `params = {...body}`; set `params.action`
to the resolved action when `params.action` is falsy; then copy in each query
key whose current value in `params` is falsy (`if (!params[key])`). -/
def buildParams (body : List (String × Json)) (query : List (String × String))
    (action : Json) : List (String × Json) :=
  let params := body
  let params :=
    if jsTruthyOpt (jfield params "action") then params
    else jsetField params "action" action
  query.foldl
    (fun acc kv =>
      if jsTruthyOpt (jfield acc kv.1) then acc
      else jsetField acc kv.1 (Json.str kv.2))
    params

/-- The CORS headers injected on every dispatched response
(lines 161-163). -/
def setHeader (hs : List (String × String)) (k v : String) : List (String × String) :=
  match hs with
  | [] => [(k, v)]
  | (k0, v0) :: rest => if k0 = k then (k0, v) :: rest else (k0, v0) :: setHeader rest k v

def withCors (hs : List (String × String)) : List (String × String) :=
  setHeader (setHeader (setHeader hs
    "Access-Control-Allow-Origin" "*")
    "Access-Control-Allow-Methods" "GET, POST, OPTIONS")
    "Access-Control-Allow-Headers" "Content-Type"

/-- The immediate CORS-preflight response (lines 39-50). -/
def optionsResponse : HttpResponse :=
  { statusCode := 200,
    headers := [("Content-Type", "application/json"),
                ("Access-Control-Allow-Origin", "*"),
                ("Access-Control-Allow-Methods", "GET, POST, OPTIONS"),
                ("Access-Control-Allow-Headers", "Content-Type")],
    body := Json.obj [("success", Json.bool true)] }

/-- The domain handlers behind the dispatch switch (each an awaited call that
either returns a response or throws), as an oracle indexed by the action
name. -/
structure HandlerEnv where
  run : String → List (String × Json) → Except ThrownError HttpResponse

/-- The Lambda handler of src index.js (lines 30-169): OPTIONS short-circuit,
body parse, action resolution, parameter merge, dispatch (the switch cases
are exactly `VALID_ACTIONS`; a non-string or unknown action falls through to
`ValidationError`), CORS injection on the dispatched result, and the global
error handler on anything thrown. -/
def handler (e : LambdaEvent) (env : HandlerEnv) : HttpResponse :=
  if e.httpMethod == some "OPTIONS" then optionsResponse
  else
    let action := resolveAction e
    let params := buildParams (parsedBody e) (queryParamsOf e) action
    match action with
    | Json.str s =>
        if VALID_ACTIONS.contains s then
          match env.run s params with
          | Except.ok r => { r with headers := withCors r.headers }
          | Except.error err => handleError err
        else handleError (validationError "Invalid action specified" "action")
    | _ => handleError (validationError "Invalid action specified" "action")

/-! ## The voice-webhook function-call path (src index.js lines 387-496) -/

/-- The function names accepted by the switch in `handleFunctionCall`. -/
def knownFunctions : List String :=
  ["checkAvailability", "createBooking", "rescheduleBooking",
   "cancelBooking", "getBookingDetails"]

/-- The VAPI response envelope
`{response:{type:'function_response', function_response:{...}}}`. -/
def vapiEnvelope (fr : List (String × Json)) : Json :=
  Json.obj [("response", Json.obj
    [("type", Json.str "function_response"),
     ("function_response", Json.obj fr)])]

/-- The `name` field of the envelope: omitted when the payload carried no
function name (`JSON.stringify` drops an `undefined` property). -/
def nameField : Option String → List (String × Json)
  | some s => [("name", Json.str s)]
  | none => []

/-- `handleFunctionCall` of src index.js: dispatch the named function
(an unknown or missing name throws `ValidationError`), then wrap the parsed
result — with the conflict special case for `createBooking` at status 409 —
in the VAPI envelope at status 200; any thrown error is wrapped at status 200
with the message in `function_response.error`. -/
def handleFunctionCall (functionName : Option String)
    (dispatch : String → Except ThrownError HttpResponse) : HttpResponse :=
  let outcome : Except ThrownError HttpResponse :=
    match functionName with
    | some s =>
        if knownFunctions.contains s then dispatch s
        else Except.error (validationError ("Unknown function: " ++ s) "function")
    | none => Except.error (validationError "Unknown function: undefined" "function")
  match outcome with
  | Except.error err =>
      { statusCode := 200,
        body := vapiEnvelope
          (nameField functionName ++ [("error", Json.str err.message)]) }
  | Except.ok result =>
      let parsedResult := result.body
      let functionResponse :=
        if functionName == some "createBooking" && result.statusCode == 409
            && jsTruthyOpt (jget parsedResult "alternativeSlots") then
          Json.obj
            ([("success", Json.bool false)]
              ++ optJsonField "error" (jget parsedResult "error")
              ++ optJsonField "alternativeSlots" (jget parsedResult "alternativeSlots")
              ++ optJsonField "message" (jget parsedResult "message"))
        else parsedResult
      { statusCode := 200,
        body := vapiEnvelope
          (nameField functionName ++ [("response", functionResponse)]) }

/-! ## getAvailableSlots and the shared configuration (src index.js 597-671) -/

/-- The process-wide `config.cal` fields read and (in the original code)
written by the slot handlers. -/
structure CalSharedConfig where
  apiKey : String
  eventTypeId : String
deriving DecidableEq, Repr

/-- JavaScript `a || b` on an optional string (empty string is falsy). -/
def jsOrStr (a : Option String) (b : String) : String :=
  match a with
  | some s => if s != "" then s else b
  | none => b

/-- The parameters consumed by `getAvailableSlots`; `endParam` models the
reserved-word JS key `end`. -/
structure SlotsParams where
  startTime : Option JsDate := none
  startDate : Option JsDate := none
  start : Option JsDate := none
  endTime : Option JsDate := none
  endDate : Option JsDate := none
  endParam : Option JsDate := none
  apiKey : Option String := none
  api_key : Option String := none
  eventTypeId : Option String := none
  event_type_id : Option String := none

/-- The arguments handed to `calApi.getSlots`. -/
structure SlotsApiCall where
  startTime : JsDate
  endTime : JsDate
  eventTypeId : String
  apiKey : String
deriving DecidableEq, Repr

/-- `getAvailableSlots` of src index.js (lines 597-671), with the shared
configuration threaded explicitly: default start is now, default end is
start plus 14 days (`end.setDate(start.getDate() + 14)`); a custom API key
from the parameters is WRITTEN INTO the shared configuration
(`config.cal.apiKey = apiKey`, line 627) before the call; a missing event
type id throws `ValidationError`.  Returns the response together with the
shared configuration as it stands afterwards. -/
def getAvailableSlots (p : SlotsParams) (cfg : CalSharedConfig) (now : JsDate)
    (api : SlotsApiCall → Except ThrownError Json) :
    HttpResponse × CalSharedConfig :=
  let startTime := ((p.startTime <|> p.startDate <|> p.start).getD now)
  let endTime := ((p.endTime <|> p.endDate <|> p.endParam).getD
    (setDayOfMonth startTime ((startTime.day : Int) + 14)))
  let apiKey := jsOrStr p.apiKey (jsOrStr p.api_key cfg.apiKey)
  let cfg2 := if apiKey != "" && apiKey != cfg.apiKey then
                { cfg with apiKey := apiKey }
              else cfg
  let eventTypeId := jsOrStr p.eventTypeId (jsOrStr p.event_type_id cfg.eventTypeId)
  if eventTypeId == "" then
    (handleError (validationError "Event type ID is required" "eventTypeId"), cfg2)
  else
    match api { startTime := startTime, endTime := endTime,
                eventTypeId := eventTypeId, apiKey := cfg2.apiKey } with
    | Except.ok slots =>
        ({ statusCode := 200,
           headers := [("Content-Type", "application/json"),
                       ("Access-Control-Allow-Origin", "*"),
                       ("Access-Control-Allow-Methods", "GET, POST, OPTIONS"),
                       ("Access-Control-Allow-Headers", "Content-Type")],
           body := Json.obj [("success", Json.bool true), ("slots", slots)] }, cfg2)
    | Except.error err => (handleError err, cfg2)

/-! ## Concrete scenarios -/

/-- A reference current instant: 2025-03-10 12:00 UTC. -/
def refNow : JsDate := ⟨2025, 3, 10, 12, 0, 0, 0⟩

/-- A requested start in a past year: 2023-06-15 10:00 UTC. -/
def pastStart : JsDate := ⟨2023, 6, 15, 10, 0, 0, 0⟩

/-- A requested end 30 minutes after `pastStart`. -/
def pastEnd : JsDate := ⟨2023, 6, 15, 10, 30, 0, 0⟩

/-- The date-repair result for `pastStart` at `refNow`: same month, day and
time of day, year moved to 2025. -/
def repairedStart : JsDate := ⟨2025, 6, 15, 10, 0, 0, 0⟩

/-- An availability slot near the ORIGINAL (2023) requested date. -/
def nearbySlot : JsDate := ⟨2023, 6, 14, 9, 0, 0, 0⟩

/-- A legacy-shape booking request that passes validation and asks for
`pastStart`. -/
def sampleParams : BookingParams :=
  { name := some "Jane Doe", email := some "jane@example.com",
    startTime := some pastStart, timeZone := some "UTC" }

def defaultCfg : CalConfig := {}

/-- An oracle that reports one slot for the window around the ORIGINAL
(2023) date and no slots for any other window — it discriminates which
window the booking handler queries. -/
def windowSensitiveApi : CalApi :=
  { getAvailability := fun _ s e _ =>
      if s == "2023-06-14" && e == "2023-06-16" then Except.ok [nearbySlot]
      else Except.ok [],
    createBooking := fun _ => Except.error ⟨"cal", 500, none⟩ }

/-- An oracle whose availability query always comes back empty. -/
def emptyAvailabilityApi : CalApi :=
  { getAvailability := fun _ _ _ _ => Except.ok [],
    createBooking := fun _ => Except.error ⟨"cal", 500, none⟩ }

/-! ## Claim theorems -/

/-- C1: the claim says the pre-flight availability check queries the window
one day before to one day after the POSSIBLY REPAIRED start date.  The code
disagrees: after date repair has moved `params.startTime` to 2025-06-15, the
handler still queries the window computed from the stale original constant
`startTime` (2023-06-14 to 2023-06-16) — the discriminating oracle returns
slots only for the 2023 window, and the 409 answer contains exactly that
slot, while the repaired date would have produced the 2025 window, for which
the oracle is empty. -/
theorem createBooking_preflight_window_uses_original_date :
    createBooking sampleParams defaultCfg refNow windowSensitiveApi =
      Except.ok (conflictResponse [nearbySlot]) ∧
    (dateRepair pastStart none refNow).1 = repairedStart ∧
    availabilityWindow pastStart 1 1 = ("2023-06-14", "2023-06-16") ∧
    availabilityWindow repairedStart 1 1 = ("2025-06-14", "2025-06-16") ∧
    windowSensitiveApi.getAvailability 2077162 "2025-06-14" "2025-06-16" "UTC" =
      Except.ok [] ∧
    jarrLen? (jget (conflictResponse [nearbySlot]).body "alternativeSlots") = some 1 :=
  ⟨rfl, by decide, by decide, by decide, rfl, rfl⟩

/-- C2: the claim says a supplied end time is shifted by the same offset as
the start time.  The code computes `timeDiff` against `bookingDate` AFTER it
was reassigned to the adjusted date, so the adjusted end time equals the
original end time — the end is not shifted at all, while the start moved by
two years. -/
theorem dateRepair_end_time_not_shifted :
    (dateRepair pastStart (some pastEnd) refNow).1 = repairedStart ∧
    (dateRepair pastStart (some pastEnd) refNow).2 = some pastEnd ∧
    ¬ (getTime pastEnd - getTime pastEnd =
        getTime repairedStart - getTime pastStart) := by decide

/-- A 29 February request in a past leap year. -/
def leapOrig : JsDate := ⟨2024, 2, 29, 10, 30, 0, 0⟩

/-- A current instant after that leap day, in a non-leap year. -/
def leapNow : JsDate := ⟨2025, 6, 1, 0, 0, 0, 0⟩

/-- C5 counterexample: for an original start of 29 February 2024 the repaired
date is 1 March (of 2026, after the extra-year step), so month and day are
NOT identical to the original, refuting the claim as stated. -/
theorem repairStart_leap_day_counterexample :
    repairStart leapOrig leapNow = some ⟨2026, 3, 1, 10, 30, 0, 0⟩ ∧
    leapOrig.month = 2 ∧ leapOrig.day = 29 := by decide

/-- A slots request carrying its own API key. -/
def customKeyParams : SlotsParams :=
  { apiKey := some "custom-key",
    startTime := some ⟨2025, 6, 15, 10, 0, 0, 0⟩,
    endTime := some ⟨2025, 6, 22, 10, 0, 0, 0⟩,
    eventTypeId := some "2077162" }

def sharedCfg : CalSharedConfig := ⟨"default-key", "2077162"⟩

def slotsOkApi : SlotsApiCall → Except ThrownError Json :=
  fun _ => Except.ok (Json.arr [])

/-- C9: the claim requires a per-request API key override never to be
written into the shared process-wide configuration.  The code does write it:
after handling a `getAvailableSlots` request that supplies `custom-key`, the
shared configuration's API key has changed from `default-key` to
`custom-key`. -/
theorem getAvailableSlots_writes_shared_config :
    ((getAvailableSlots customKeyParams sharedCfg refNow slotsOkApi).2).apiKey =
      "custom-key" ∧
    sharedCfg.apiKey = "default-key" ∧
    ("custom-key" : String) ≠ "default-key" ∧
    ((getAvailableSlots customKeyParams sharedCfg refNow slotsOkApi).1).statusCode =
      200 := by decide

/-- C4 counterexample: when the pre-flight availability query returns no
slots at all, the requested time is (vacuously) not available and the 409
conflict response carries an EMPTY `alternativeSlots` array, refuting the
claimed non-emptiness. -/
theorem createBooking_conflict_empty_alternatives :
    createBooking sampleParams defaultCfg refNow emptyAvailabilityApi =
      Except.ok (conflictResponse []) ∧
    (conflictResponse []).statusCode = 409 ∧
    jbool? (jget (conflictResponse []).body "success") = some false ∧
    jarrLen? (jget (conflictResponse []).body "alternativeSlots") = some 0 :=
  ⟨rfl, rfl, rfl, rfl⟩

/-- A parsed body whose `foo` is present with a falsy (empty string)
value. -/
def falsyBody : List (String × Json) := [("foo", Json.str "")]

def fooQuery : List (String × String) := [("foo", "bar")]

/-- C6 counterexample: the merge guard is `!params[key]` (JS falsiness), not
key absence — a body key that is present with the falsy value `""` IS
overwritten by the query parameter, refuting the claim as stated. -/
theorem buildParams_overwrites_falsy_body_value :
    jfield falsyBody "foo" = some (Json.str "") ∧
    jstr? (jfield (buildParams falsyBody fooQuery (Json.str "handleVapiWebhook")) "foo") =
      some "bar" ∧
    ("bar" : String) ≠ "" :=
  ⟨rfl, rfl, by decide⟩

/-- A request whose path names `findAvailability` — a member of
`VALID_ACTIONS` but not of the local `knownActions` list — with no `action`
query parameter and a contradicting body `action`. -/
def findAvailabilityPathEvent : LambdaEvent :=
  { path := some "/findAvailability",
    body := some (Except.ok [("action", Json.str "cancelBooking")]) }

/-- C7 counterexample: the claim reads the known-actions set as the closed
action enumeration (`VALID_ACTIONS`, its cited source), but the handler
checks the six-element local `knownActions` list — so the path segment
`findAvailability`, although in `VALID_ACTIONS`, resolves to
`handleVapiWebhook` rather than to itself. -/
theorem resolveAction_findAvailability_counterexample :
    VALID_ACTIONS.contains "findAvailability" = true ∧
    knownActions.contains "findAvailability" = false ∧
    resolveAction findAvailabilityPathEvent = Json.str "handleVapiWebhook" ∧
    ("handleVapiWebhook" : String) ≠ "findAvailability" :=
  ⟨by decide, by decide, rfl, by decide⟩

/-- A trivial dispatched result for exercising the webhook envelope. -/
def trivialOkResponse : HttpResponse := { statusCode := 200, body := Json.obj [] }

/-- C8 counterexample: a function-call payload that carries no function name
is still processed by `handleFunctionCall`; the response keeps status 200,
but `JSON.stringify` drops the `undefined` name, so `function_response` has
NO `name` field — only the error — refuting the claimed body shape. -/
theorem handleFunctionCall_missing_name_counterexample :
    (handleFunctionCall none (fun _ => Except.ok trivialOkResponse)).statusCode = 200 ∧
    jgetStr ((jget (handleFunctionCall none (fun _ => Except.ok trivialOkResponse)).body
        "response").bind (fun x => jget x "function_response")) "name" = none ∧
    jgetStr ((jget (handleFunctionCall none (fun _ => Except.ok trivialOkResponse)).body
        "response").bind (fun x => jget x "function_response")) "error" =
      some "Unknown function: undefined" :=
  ⟨rfl, rfl, rfl⟩

/-! ## Shared helper lemmas -/

theorem jfield_jsetField_ne (l : List (String × Json)) (k2 k : String) (v2 : Json)
    (hne : k ≠ k2) : jfield (jsetField l k2 v2) k = jfield l k := by
  induction l with
  | nil => simp [jsetField, jfield, Ne.symm hne]
  | cons hd tl ih =>
      obtain ⟨k0, v0⟩ := hd
      by_cases hk : k0 = k2
      · subst hk
        simp [jsetField, jfield, Ne.symm hne]
      · simp only [jsetField, if_neg hk]
        by_cases hk0 : k0 = k
        · simp [jfield, hk0]
        · simp [jfield, hk0, ih]

theorem mergeFold_keeps_truthy (query : List (String × String))
    (params : List (String × Json)) (k : String) (v : Json)
    (hk : jfield params k = some v) (hv : jsTruthy v = true) :
    jfield (query.foldl
      (fun acc kv => if jsTruthyOpt (jfield acc kv.1) then acc
                     else jsetField acc kv.1 (Json.str kv.2)) params) k = some v := by
  induction query generalizing params with
  | nil => simpa using hk
  | cons q qs ih =>
      simp only [List.foldl_cons]
      apply ih
      split
      · exact hk
      · next hf =>
          have hne : k ≠ q.1 := by
            intro he
            rw [he] at hk
            rw [hk] at hf
            simp [jsTruthyOpt, hv] at hf
          rw [jfield_jsetField_ne _ _ _ _ hne]
          exact hk

theorem findAlternativeTimeSlots_length_eq (slots : List JsDate) (t0 : JsDate)
    (n : Nat) : (findAlternativeTimeSlots slots t0 n).length = min n slots.length := by
  unfold findAlternativeTimeSlots
  rw [List.length_take]
  rw [(List.perm_insertionSort (altRel t0) slots).length_eq]

theorem setFullYear_cases (d : JsDate) (y : Nat)
    (hm1 : 1 ≤ d.month) (hm2 : d.month ≤ 12)
    (hd1 : 1 ≤ d.day) (hd2 : d.day ≤ daysInMonth d.year d.month) :
    (setFullYear d y).year = y ∧
    (setFullYear d y).hour = d.hour ∧ (setFullYear d y).minute = d.minute ∧
    1 ≤ (setFullYear d y).month ∧ (setFullYear d y).month ≤ 12 ∧
    1 ≤ (setFullYear d y).day ∧
    (setFullYear d y).day ≤ daysInMonth y (setFullYear d y).month ∧
    ((setFullYear d y).month = d.month ∧ (setFullYear d y).day = d.day ∨
      (d.month = 2 ∧ d.day = 29 ∧ (setFullYear d y).month = 3 ∧ (setFullYear d y).day = 1)) := by
  unfold setFullYear
  by_cases h : d.day ≤ daysInMonth y d.month
  · rw [if_pos h]
    exact ⟨rfl, rfl, rfl, hm1, hm2, hd1, h, Or.inl ⟨rfl, rfl⟩⟩
  · rw [if_neg h]
    have hmth : d.month = 2 := by
      by_contra hne
      have heq : daysInMonth y d.month = daysInMonth d.year d.month := by
        unfold daysInMonth
        rw [if_neg hne, if_neg hne]
      omega
    have hkey : daysInMonth y d.month = 28 ∧ d.day = 29 := by
      rw [hmth] at hd2 h ⊢
      unfold daysInMonth at hd2 h ⊢
      by_cases hl1 : isLeapYear y <;> by_cases hl2 : isLeapYear d.year <;>
        simp [hl1, hl2] at hd2 h ⊢ <;> omega
    have h31 : daysInMonth y (d.month + 1) = 31 := by
      rw [hmth]
      unfold daysInMonth
      norm_num
    refine ⟨rfl, rfl, rfl, ?_, ?_, ?_, ?_, Or.inr ⟨hmth, hkey.2, ?_, ?_⟩⟩
    · show 1 ≤ d.month + 1
      omega
    · show d.month + 1 ≤ 12
      omega
    · show 1 ≤ d.day - daysInMonth y d.month
      omega
    · show d.day - daysInMonth y d.month ≤ daysInMonth y (d.month + 1)
      omega
    · show d.month + 1 = 3
      omega
    · show d.day - daysInMonth y d.month = 1
      omega

/-- C3: `findAlternativeTimeSlots slots t0 n` returns at most `n` entries,
sorted by ascending absolute time distance to `t0` with equal distances
broken by the earlier timestamp (the `altRel t0` order), and every returned
entry is drawn from the candidate set; being a pure function of its
arguments, the result is deterministic for a fixed input. -/
theorem findAlternativeTimeSlots_ranking (slots : List JsDate) (t0 : JsDate)
    (n : Nat) :
    (findAlternativeTimeSlots slots t0 n).length ≤ n ∧
    List.Sorted (altRel t0) (findAlternativeTimeSlots slots t0 n) ∧
    (∀ s, s ∈ findAlternativeTimeSlots slots t0 n → s ∈ slots) := by
  refine ⟨?_, ?_, ?_⟩
  · exact List.length_take_le n _
  · exact List.Pairwise.take (List.sorted_insertionSort (altRel t0) slots)
  · intro s hs
    have h1 : s ∈ slots.insertionSort (altRel t0) := List.mem_of_mem_take hs
    exact (List.perm_insertionSort (altRel t0) slots).mem_iff.mp h1

/-- The spec's worked candidate set: slots at 09:00, 10:00 and 11:30 with a
10:15 requested instant. -/
def exampleSlots : List JsDate :=
  [⟨2025, 6, 16, 9, 0, 0, 0⟩, ⟨2025, 6, 16, 10, 0, 0, 0⟩, ⟨2025, 6, 16, 11, 30, 0, 0⟩]

def exampleRequested : JsDate := ⟨2025, 6, 16, 10, 15, 0, 0⟩

theorem findAlternativeTimeSlots_ranking_witness :
    (findAlternativeTimeSlots exampleSlots exampleRequested 2).length ≤ 2 :=
  (findAlternativeTimeSlots_ranking exampleSlots exampleRequested 2).1

/-- C4 (amended): when validation passes, the pre-flight availability query
answers `avail`, and the exact requested start time is not in it, the
response is the 409 conflict with `success:false` and an `alternativeSlots`
array of at most 5 ranked entries — non-empty exactly when the availability
list itself was non-empty (so the array CAN be empty). -/
theorem createBooking_conflict_shape (p : BookingParams) (cfg : CalConfig)
    (now startTime0 : JsDate) (api : CalApi) (avail : List JsDate)
    (hn : presentStr p.name = true) (he : presentStr p.email = true)
    (hs : p.startTime = some startTime0) (ht : presentStr p.timeZone = true)
    (hav : api.getAvailability (p.eventTypeId.getD cfg.eventTypeId)
        (availabilityWindow startTime0 1 1).1 (availabilityWindow startTime0 1 1).2
        (p.timeZone.getD "") = Except.ok avail)
    (hconf : isTimeSlotAvailable avail startTime0 = false) :
    createBooking p cfg now api =
      Except.ok (conflictResponse (findAlternativeTimeSlots avail startTime0 5)) ∧
    (conflictResponse (findAlternativeTimeSlots avail startTime0 5)).statusCode = 409 ∧
    jbool? (jget (conflictResponse (findAlternativeTimeSlots avail startTime0 5)).body
      "success") = some false ∧
    jarrLen? (jget (conflictResponse (findAlternativeTimeSlots avail startTime0 5)).body
      "alternativeSlots") = some (findAlternativeTimeSlots avail startTime0 5).length ∧
    (findAlternativeTimeSlots avail startTime0 5).length ≤ 5 ∧
    (avail ≠ [] → (findAlternativeTimeSlots avail startTime0 5).length ≠ 0) := by
  refine ⟨?_, rfl, ?_, ?_, ?_, ?_⟩
  · unfold createBooking
    rw [hs]
    simp only [hn, he, ht, Bool.and_self, Bool.not_true, Bool.false_eq_true, if_false,
      formatAvailabilityForVoice, hav, hconf, Bool.not_false, if_true]
  · simp [conflictResponse, jget, jfield, jbool?]
  · simp [conflictResponse, jget, jfield, jarrLen?]
  · rw [findAlternativeTimeSlots_length_eq]; omega
  · intro hne
    rw [findAlternativeTimeSlots_length_eq]
    have : 0 < avail.length := List.length_pos.mpr hne
    omega

/-- An oracle whose availability query always returns the single
`nearbySlot`. -/
def constantAvailApi : CalApi :=
  { getAvailability := fun _ _ _ _ => Except.ok [nearbySlot],
    createBooking := fun _ => Except.error ⟨"cal", 500, none⟩ }

theorem createBooking_conflict_shape_witness :
    isTimeSlotAvailable [nearbySlot] pastStart = false ∧
    createBooking sampleParams defaultCfg refNow constantAvailApi =
      Except.ok (conflictResponse (findAlternativeTimeSlots [nearbySlot] pastStart 5)) :=
  ⟨by decide,
   (createBooking_conflict_shape sampleParams defaultCfg refNow pastStart
      constantAvailApi [nearbySlot] rfl rfl rfl rfl rfl (by decide)).1⟩

/-- C5 (amended): for a start time with a past year, the repaired date keeps
the hour and minute, its year is the current year — or the current year plus
one exactly when the current-year version is still not in the future — and
it keeps the month and day except when the original date is 29 February and
the chosen year is not a leap year, in which case the date normalizes to
1 March. -/
theorem repairStart_past_year (orig now : JsDate)
    (hv : ValidDate orig) (hy : orig.year < now.year) :
    ∃ r, repairStart orig now = some r ∧
      r.hour = orig.hour ∧ r.minute = orig.minute ∧
      now.year ≤ r.year ∧
      r.year = (if jsLe (setFullYear orig now.year) now then now.year + 1 else now.year) ∧
      ((r.month = orig.month ∧ r.day = orig.day) ∨
        (orig.month = 2 ∧ orig.day = 29 ∧ r.month = 3 ∧ r.day = 1)) := by
  obtain ⟨hm1, hm2, hd1, hd2, -⟩ := hv
  obtain ⟨hy1, hh1, hmin1, am1, am2, ad1, ad2, hcase1⟩ :=
    setFullYear_cases orig now.year hm1 hm2 hd1 hd2
  unfold repairStart
  rw [if_pos (Or.inl hy), if_pos hy]
  by_cases hle : jsLe (setFullYear orig now.year) now = true
  · obtain ⟨by1, bh1, bmin1, -, -, -, -, hcase2⟩ :=
      setFullYear_cases (setFullYear orig now.year) (now.year + 1) am1 am2 ad1
        (by rw [hy1]; exact ad2)
    rw [if_pos hle]
    refine ⟨_, rfl, ?_, ?_, ?_, ?_, ?_⟩
    · rw [bh1, hh1]
    · rw [bmin1, hmin1]
    · omega
    · rw [if_pos hle]; exact by1
    · rcases hcase2 with ⟨hbm, hbd⟩ | ⟨hbm2, hbd2, hbm3, hbd3⟩ <;>
        rcases hcase1 with ⟨ham, had⟩ | ⟨ham2, had2, ham3, had3⟩ <;>
        [ (exact Or.inl ⟨hbm ▸ ham, hbd ▸ had⟩);
          (exact Or.inr ⟨ham2, had2, hbm ▸ ham3, hbd ▸ had3⟩);
          (exact Or.inr ⟨by omega, by omega, hbm3, hbd3⟩);
          (exact absurd hbm2 (by omega)) ]
  · rw [if_neg hle]
    refine ⟨_, rfl, hh1, hmin1, ?_, ?_, hcase1⟩
    · omega
    · rw [if_neg hle]; exact hy1

theorem repairStart_past_year_witness :
    ValidDate pastStart ∧ pastStart.year < refNow.year ∧
    ((repairStart pastStart refNow).getD pastStart).hour = pastStart.hour := by
  obtain ⟨r, hr, hh, -⟩ :=
    repairStart_past_year pastStart refNow (by decide) (by decide)
  exact ⟨by decide, by decide, by rw [hr]; exact hh⟩

/-- C6 (amended): `params` starts as a copy of the parsed body, and a body
key whose value is TRUTHY is never overwritten — neither by the `action`
fill-in nor by the query merge; a body key holding a falsy value (empty
string, 0, false, null), however, is treated like an absent key and is
overwritten, because the guard is JS falsiness (`!params[key]`), not key
absence. -/
theorem buildParams_keeps_truthy (body : List (String × Json))
    (query : List (String × String)) (action : Json) (k : String) (v : Json)
    (hk : jfield body k = some v) (hv : jsTruthy v = true) :
    jfield (buildParams body query action) k = some v := by
  unfold buildParams
  apply mergeFold_keeps_truthy _ _ _ _ _ hv
  split
  · exact hk
  · next hf =>
      have hne : k ≠ "action" := by
        intro he
        rw [he] at hk
        rw [hk] at hf
        simp [jsTruthyOpt, hv] at hf
      rw [jfield_jsetField_ne _ _ _ _ hne]
      exact hk

theorem buildParams_keeps_truthy_witness :
    jfield [("bar", Json.str "keep")] "bar" = some (Json.str "keep") ∧
    jsTruthy (Json.str "keep") = true ∧
    jfield (buildParams [("bar", Json.str "keep")] [("bar", "replace")]
      (Json.str "handleVapiWebhook")) "bar" = some (Json.str "keep") :=
  ⟨rfl, rfl,
   buildParams_keeps_truthy [("bar", Json.str "keep")] [("bar", "replace")]
     (Json.str "handleVapiWebhook") "bar" (Json.str "keep") rfl rfl⟩

/-- C7 (amended): with no `createBooking` path signal and no non-empty
`action` query parameter, a last path segment in the dispatcher's local
six-element `knownActions` list resolves to itself, and any other non-empty
segment resolves to `handleVapiWebhook` — in both cases regardless of any
`action` field in the body.  (The set consulted is `knownActions`, NOT the
full `VALID_ACTIONS` enumeration.) -/
theorem resolveAction_path_resolution (e : LambdaEvent)
    (h1 : lastPathPart e ≠ "createBooking")
    (h2 : e.path ≠ some "/createBooking")
    (h3 : hasQueryAction e = false) :
    (knownActions.contains (lastPathPart e) = true →
      resolveAction e = Json.str (lastPathPart e)) ∧
    (lastPathPart e ≠ "" → knownActions.contains (lastPathPart e) = false →
      resolveAction e = Json.str "handleVapiWebhook") := by
  constructor
  · intro hc
    have hne : lastPathPart e ≠ "" := by
      intro hz
      rw [hz] at hc
      simp [knownActions] at hc
    have hmem := hc
    simp at hmem
    unfold resolveAction
    rw [h3]
    simp [h1, h2, hne, hmem]
  · intro hne hc
    have hmem := hc
    simp at hmem
    unfold resolveAction
    rw [h3]
    simp [h1, h2, hne, hmem]

def checkAvailabilityPathEvent : LambdaEvent := { path := some "/checkAvailability" }

theorem resolveAction_path_resolution_witness :
    lastPathPart checkAvailabilityPathEvent = "checkAvailability" ∧
    knownActions.contains "checkAvailability" = true ∧
    resolveAction checkAvailabilityPathEvent = Json.str "checkAvailability" := by
  refine ⟨by decide, by decide, ?_⟩
  have h := (resolveAction_path_resolution checkAvailabilityPathEvent
    (by decide) (by decide) rfl).1 (by decide)
  rw [h]
  rfl

/-- C8 (amended): `handleFunctionCall` always answers status 200 with the
envelope `{response:{type, function_response}}`; `function_response` carries
the function name whenever the payload supplied one (the `name` field is
dropped with the `undefined` name otherwise), it always carries a `response`
or an `error`, and a thrown failure of a known function puts the error
message in `function_response.error` while the status stays 200. -/
theorem handleFunctionCall_envelope (fn : Option String)
    (dispatch : String → Except ThrownError HttpResponse) :
    (handleFunctionCall fn dispatch).statusCode = 200 ∧
    ∃ fr, (handleFunctionCall fn dispatch).body = vapiEnvelope fr ∧
      (∀ s, fn = some s → jfield fr "name" = some (Json.str s)) ∧
      ((jfield fr "response").isSome ∨ (jfield fr "error").isSome) ∧
      (∀ s err, fn = some s → knownFunctions.contains s = true →
        dispatch s = Except.error err →
        jfield fr "error" = some (Json.str err.message)) := by
  cases fn with
  | none =>
      refine ⟨rfl, _, rfl, ?_, ?_, ?_⟩
      · intro s hs; cases hs
      · right; simp [nameField, jfield]
      · intro s err hs; cases hs
  | some s =>
      by_cases hc : knownFunctions.contains s = true
      · cases hd : dispatch s with
        | error err0 =>
            unfold handleFunctionCall
            simp only [hc, if_true, hd]
            refine ⟨trivial, _, rfl, ?_, ?_, ?_⟩
            · intro s2 hs2; injection hs2 with h; subst h; simp [nameField, jfield]
            · right; simp [nameField, jfield]
            · intro s2 err2 hs2 _ hd2
              injection hs2 with h; subst h
              rw [hd] at hd2; injection hd2 with h2; subst h2
              simp [nameField, jfield]
        | ok result =>
            unfold handleFunctionCall
            simp only [hc, if_true, hd]
            refine ⟨trivial, _, rfl, ?_, ?_, ?_⟩
            · intro s2 hs2; injection hs2 with h; subst h; simp [nameField, jfield]
            · left; simp [nameField, jfield]
            · intro s2 err2 hs2 _ hd2
              injection hs2 with h; subst h
              rw [hd] at hd2; cases hd2
      · rw [Bool.not_eq_true] at hc
        unfold handleFunctionCall
        simp only [hc, Bool.false_eq_true, if_false]
        refine ⟨trivial, _, rfl, ?_, ?_, ?_⟩
        · intro s2 hs2; injection hs2 with h; subst h; simp [nameField, jfield]
        · right; simp [nameField, jfield]
        · intro s2 err2 hs2 hc2 _
          injection hs2 with h; subst h
          rw [hc2] at hc; cases hc

def failingDispatch : String → Except ThrownError HttpResponse :=
  fun _ => Except.error (validationError "Time not available" "startTime")

theorem handleFunctionCall_envelope_witness :
    (handleFunctionCall (some "createBooking") failingDispatch).statusCode = 200 :=
  (handleFunctionCall_envelope (some "createBooking") failingDispatch).1

/-- C10: an OPTIONS request short-circuits: the handler answers 200 with
body `{success:true}` and the CORS headers, and the response is the same
whatever the rest of the event or the behavior of every downstream handler
is (so no body parse, action resolution or provider call can influence
it). -/
theorem handler_options_short_circuit (e e2 : LambdaEvent) (env env2 : HandlerEnv)
    (h : e.httpMethod = some "OPTIONS") (h2 : e2.httpMethod = some "OPTIONS") :
    handler e env = handler e2 env2 ∧
    handler e env = optionsResponse ∧
    optionsResponse.statusCode = 200 ∧
    jbool? (jget optionsResponse.body "success") = some true ∧
    optionsResponse.headers = [("Content-Type", "application/json"),
      ("Access-Control-Allow-Origin", "*"),
      ("Access-Control-Allow-Methods", "GET, POST, OPTIONS"),
      ("Access-Control-Allow-Headers", "Content-Type")] := by
  unfold handler
  rw [h, h2]
  simp
  exact ⟨rfl, rfl, rfl⟩

def optionsEvent : LambdaEvent := { httpMethod := some "OPTIONS" }

def nullEnv : HandlerEnv := ⟨fun _ _ => Except.ok { statusCode := 200, body := Json.null }⟩

theorem handler_options_short_circuit_witness :
    handler optionsEvent nullEnv = optionsResponse :=
  (handler_options_short_circuit optionsEvent optionsEvent nullEnv nullEnv rfl rfl).2.1

end LambdaCal
